import Mathlib

/-!
Shallow embedding of the audio dynamics / level-metering core of the
`aprs_agent` repository (Go), together with proofs of the spec claims.

Conventions of the embedding:
* A 16-bit audio sample (Go `int16`, assembled from two little-endian
  bytes by `int16(data[j]) | int16(data[j+1])<<8`) is modelled as an `Int`;
  a block (`[]byte` of even length) is modelled as the `List Int` of its
  decoded samples.  Go `int16` arithmetic that can wrap is made explicit
  with `wrap16`.
* Go `float64` arithmetic on sample values is modelled by exact rational
  arithmetic (`ℚ`): every concrete `float64` value is a (dyadic) rational,
  and all branch conditions in this code compare against values far from
  representation error, so branching behaviour agrees.
* `math.Pow(10, x/20.0)` (libm, a black box returning some nonnegative
  dyadic rational) is modelled by an abstract parameter `lin : ℚ → ℚ`
  where that is needed; stage functions take the already-linearised
  threshold directly, as the Go stage functions compute it locally.
* Decibel results are not stored as reals: the inductive `Lvl` records
  either an exact assigned dB constant (`Lvl.flat x`, e.g. the −96.0
  silence floor) or the squared linear magnitude `q` (`Lvl.db q`), whose
  dB interpretation is `10 * log10 (q / 32767²) = 20 * log10 (√q / 32767)`.
  Theorems relate this interpretation to `Real.logb` where a claim speaks
  of concrete dB values.
* A Go method that mutates its receiver and returns `error` is modelled
  as a function `args → State → Option Err × State`; `none` is the `nil`
  error.  A method returning nothing is `args → State → State`.
-/

/-- Error values returned by the audio core (Go uses `fmt.Errorf` strings;
each constructor names one of those error conditions). -/
inductive Err
  /-- "音频输入已在运行" / "音频输出已在运行" / "音频管理器已在运行" -/
  | alreadyRunning
  /-- "音频输出未运行" -/
  | notRunning
  /-- "音频输入流未启动" (Manager.StartOutput guard) -/
  | inputNotStarted
  /-- "音频队列已满" -/
  | queueFull
  /-- "增益必须在0.0-2.0之间" -/
  | gainOutOfRange
  /-- "音量必须在0.0-1.0之间" -/
  | volumeOutOfRange
  /-- "无法在运行时更新配置" -/
  | updateWhileRunning
  /-- device-resolution / driver failures surfaced by endpoint Start -/
  | deviceUnavailable
deriving DecidableEq, Repr

/-- A decoded 16-bit PCM sample (value of a Go `int16`). -/
abbrev Sample := Int

/-- Go `int16` wraparound: the result of an `int16` arithmetic operation
whose mathematical value is `x`. -/
def wrap16 (x : Int) : Int := (x + 32768) % 65536 - 32768

/-- Go conversion `int16(f)` of an in-range `float64`: truncation toward
zero. -/
def truncQ (x : ℚ) : Int := if 0 ≤ x then ⌊x⌋ else ⌈x⌉

/-- `|float64(sample)|` of a sample, exactly. -/
def qabs (s : Sample) : ℚ := |(s : ℚ)|

/-- A stored level value (Go: a `float64` holding decibels).
`flat x` is the literally-assigned constant `x` dB (e.g. the −96.0
silence floor, or the 0.0 a freshly-constructed endpoint holds);
`db q` is the computed level `10 * log10 (q / 32767^2)` dB, where `q` is
the squared linear magnitude (rms² for RMS levels, peak² for peak
levels). -/
inductive Lvl
  | flat (x : ℚ)
  | db (q : ℚ)
deriving DecidableEq, Repr

/-! ## APRSProcessor (src/audio/aprs_processor.go) -/

/-- State of `APRSProcessor` (the mutex is concurrency plumbing and not
modelled; `GetStatus`/getter methods are plain field reads). -/
structure APRSProcessor where
  noiseGateThreshold : ℚ
  compressionRatio : ℚ
  peakThreshold : ℚ
  isNoiseGateEnabled : Bool
  isCompressorEnabled : Bool
  isLimiterEnabled : Bool
  peakLevel : Lvl
  rmsLevel : Lvl
  clippingCount : Nat
deriving DecidableEq, Repr

/-- `NewAPRSProcessor`: defaults −40 dB gate, 4:1 ratio, −3 dB ceiling,
all three stages enabled; Go zero values for the statistics fields. -/
def NewAPRSProcessor : APRSProcessor :=
  { noiseGateThreshold := -40
    compressionRatio := 4
    peakThreshold := -3
    isNoiseGateEnabled := true
    isCompressorEnabled := true
    isLimiterEnabled := true
    peakLevel := .flat 0
    rmsLevel := .flat 0
    clippingCount := 0 }

/-- `APRSProcessor.calculateLevels`, returning `(rmsLevel, peakLevel)`.
The Go code computes `sum += sampleAbs*sampleAbs` in `float64` (no
`int16` overflow), `rms = sqrt(sum/sampleCount)` and branches on
`rms > 0`; since `sum ≥ 0` here, `rms > 0 ↔ sum/sampleCount > 0`, which
is the guard used below.  `peak` starts at 0 and takes the running
maximum of `sampleAbs` (`if sampleAbs > peak`). -/
def calculateLevels (data : List Sample) : Lvl × Lvl :=
  if data.isEmpty then (.flat (-96), .flat (-96))
  else
    let n : ℚ := data.length
    let sumSq : ℚ := (data.map fun s => qabs s * qabs s).sum
    let peak : ℚ := data.foldl (fun p s => max p (qabs s)) 0
    let meanSq : ℚ := sumSq / n
    ((if 0 < meanSq then .db meanSq else .flat (-96)),
     (if 0 < peak then .db (peak * peak) else .flat (-96)))

/-- `APRSProcessor.applyNoiseGate`, with `threshold` the already-computed
linear gate value `math.Pow(10, noiseGateThreshold/20.0) * 32767.0`:
any sample with `|sample| < threshold` is zeroed, others untouched. -/
def applyNoiseGate (threshold : ℚ) (data : List Sample) : List Sample :=
  data.map fun s => if qabs s < threshold then 0 else s

/-- The compressor's fixed knee `math.Pow(10, -20.0/20.0) * 32767.0`.
`10^(−1) = 0.1` exactly, so the real value is the rational 3276.7 (the
`float64` computation differs from it by ≈2·10⁻¹³, far below every
integer branch boundary, so branching and truncation agree). -/
def compressorKnee : ℚ := 3276.7

/-- Per-sample body of `APRSProcessor.applyCompressor`: above the knee,
`excess/ratio` is added to the knee, the input's sign restored, the
result clamped to `[-32768, 32767]` and truncated to `int16`.
(Note: with `ratio = 0` Go produces `+Inf` and the clamp yields 32767,
whereas `ℚ` division by zero yields 0; no theorem below evaluates the
compressor output at `ratio = 0`.) -/
def compressSample (ratio : ℚ) (s : Sample) : Sample :=
  let sampleAbs := qabs s
  if compressorKnee < sampleAbs then
    let excess := sampleAbs - compressorKnee
    let compressedExcess := excess / ratio
    let newSample0 := compressorKnee + compressedExcess
    let newSample1 := if s < 0 then -newSample0 else newSample0
    let newSample2 : ℚ :=
      if 32767 < newSample1 then 32767
      else if newSample1 < -32768 then -32768
      else newSample1
    truncQ newSample2
  else s

/-- `APRSProcessor.applyCompressor` over a block. -/
def applyCompressor (ratio : ℚ) (data : List Sample) : List Sample :=
  data.map (compressSample ratio)

/-- `APRSProcessor.applyLimiter`, with `threshold` the already-computed
linear ceiling `math.Pow(10, peakThreshold/20.0) * 32767.0` and `c` the
clipping counter on entry: any sample with `|sample| > threshold` is
replaced by `±int16(threshold)` (sign of the original, `sample > 0`
test) and the counter incremented. -/
def applyLimiter (threshold : ℚ) : List Sample → Nat → List Sample × Nat
  | [], c => ([], c)
  | s :: rest, c =>
    if threshold < qabs s then
      let s2 : Sample := if 0 < s then truncQ threshold else -truncQ threshold
      let r := applyLimiter threshold rest (c + 1)
      (s2 :: r.1, r.2)
    else
      let r := applyLimiter threshold rest c
      (s :: r.1, r.2)

/-- `APRSProcessor.ProcessAudio`: copies the input, refreshes the level
statistics, then applies gate → compressor → limiter, each only if
enabled.  `lin x` stands for the libm value `math.Pow(10, x/20.0)`
(a black box; every `float64` it returns is a rational). -/
def ProcessAudio (lin : ℚ → ℚ) (ap : APRSProcessor) (input : List Sample) :
    APRSProcessor × List Sample :=
  let levels := calculateLevels input
  let afterGate :=
    if ap.isNoiseGateEnabled then
      applyNoiseGate (lin ap.noiseGateThreshold * 32767) input
    else input
  let afterComp :=
    if ap.isCompressorEnabled then
      applyCompressor ap.compressionRatio afterGate
    else afterGate
  let afterLim :=
    if ap.isLimiterEnabled then
      applyLimiter (lin ap.peakThreshold * 32767) afterComp ap.clippingCount
    else (afterComp, ap.clippingCount)
  ({ ap with rmsLevel := levels.1, peakLevel := levels.2,
             clippingCount := afterLim.2 },
   afterLim.1)

/-- `APRSProcessor.SetNoiseGateThreshold`: unconditional store, no error. -/
def SetNoiseGateThreshold (t : ℚ) (ap : APRSProcessor) : APRSProcessor :=
  { ap with noiseGateThreshold := t }

/-- `APRSProcessor.SetCompressionRatio`: unconditional store, no error. -/
def SetCompressionRatio (t : ℚ) (ap : APRSProcessor) : APRSProcessor :=
  { ap with compressionRatio := t }

/-- `APRSProcessor.SetPeakThreshold`: unconditional store, no error. -/
def SetPeakThreshold (t : ℚ) (ap : APRSProcessor) : APRSProcessor :=
  { ap with peakThreshold := t }

/-- `APRSProcessor.ResetClippingCount`. -/
def ResetClippingCount (ap : APRSProcessor) : APRSProcessor :=
  { ap with clippingCount := 0 }

/-! ## Configuration (src/config/config.go, fields used by the core) -/

/-- The audio-relevant slice of `config.Config`: per-direction buffer
size (in frames), channel count, and the default gain/volume. -/
structure Config where
  inputBufferSize : Nat
  inputChannels : Nat
  inputGain : ℚ
  outputBufferSize : Nat
  outputChannels : Nat
  outputVolume : ℚ
deriving DecidableEq, Repr

/-! ## Input endpoint (src/audio/input.go) -/

/-- State of `Input` (device handle, context and callback are driver
plumbing outside this core and not modelled; the buffer is a byte
buffer, only its contents/length matter to the claims). -/
structure Input where
  config : Config
  isRunning : Bool
  level : Lvl
  gain : ℚ
  buffer : List Nat
deriving DecidableEq, Repr

/-- `NewInput`: not running, level 0.0 (Go zero value), gain from the
config, buffer `make([]byte, BufferSize*Channels*2)`. -/
def NewInput (cfg : Config) : Input :=
  { config := cfg
    isRunning := false
    level := .flat 0
    gain := cfg.inputGain
    buffer := List.replicate (cfg.inputBufferSize * cfg.inputChannels * 2) 0 }

/-- `Input.calculateLevel`.  NOTE (faithful to the source): the code
computes `sum += float64(sample * sample)` where `sample * sample` is
`int16 × int16 → int16` and wraps, hence `wrap16 (s * s)` below; the
wrapped square can be negative, in which case `math.Sqrt` yields NaN,
`rms > 0` is false, and the −96 branch is taken — exactly the
`¬ 0 < meanSq` branch below.  An empty block assigns level 0.0. -/
def Input.calculateLevel (data : List Sample) : Lvl :=
  if data.isEmpty then .flat 0
  else
    let n : ℚ := data.length
    let sum : ℚ := (data.map fun s => ((wrap16 (s * s) : Int) : ℚ)).sum
    let meanSq : ℚ := sum / n
    if 0 < meanSq then .db meanSq else .flat (-96)

/-- `Input.SetGain`: rejects values outside `[0, 2]`
(`gain < 0.0 || gain > 2.0`), leaving the state untouched; otherwise
stores the new gain. -/
def Input.SetGain (g : ℚ) (i : Input) : Option Err × Input :=
  if g < 0 ∨ 2 < g then (some .gainOutOfRange, i)
  else (none, { i with gain := g })

/-- `Input.Stop`: a no-op success when not running; otherwise cancels
the maintenance goroutine, stops/releases the device (driver plumbing,
not modelled) and clears the running flag.  Never fails. -/
def Input.Stop (i : Input) : Option Err × Input :=
  if i.isRunning then (none, { i with isRunning := false })
  else (none, i)

/-- `Input.UpdateConfig`: fails while running (state untouched);
otherwise stores the new config, resets the gain to the new config's
gain, and reallocates the buffer to `BufferSize*Channels*2` zero
bytes. -/
def Input.UpdateConfig (newConfig : Config) (i : Input) : Option Err × Input :=
  if i.isRunning then (some .updateWhileRunning, i)
  else
    (none,
     { i with
       config := newConfig
       gain := newConfig.inputGain
       buffer :=
         List.replicate (newConfig.inputBufferSize * newConfig.inputChannels * 2) 0 })

/-! ## Output endpoint (the repository's output.go) -/

/-- State of `Output`.  The playback queue is the Go channel
`make(chan []byte, 10)`: a bounded FIFO whose capacity is recorded in
`queueCap` (set to 10 by `NewOutput`). -/
structure Output where
  config : Config
  isRunning : Bool
  level : Lvl
  volume : ℚ
  buffer : List Nat
  queue : List (List Nat)
  queueCap : Nat
deriving DecidableEq, Repr

/-- `NewOutput`: not running, level 0.0, volume from the config, buffer
`make([]byte, BufferSize*Channels*2)`, empty queue of capacity 10. -/
def NewOutput (cfg : Config) : Output :=
  { config := cfg
    isRunning := false
    level := .flat 0
    volume := cfg.outputVolume
    buffer := List.replicate (cfg.outputBufferSize * cfg.outputChannels * 2) 0
    queue := []
    queueCap := 10 }

/-- `Output.PlayAudio`: fails with `notRunning` when stopped; otherwise
a non-blocking channel send — enqueue if below capacity, else fail with
`queueFull` and drop the block. -/
def Output.PlayAudio (data : List Nat) (o : Output) : Option Err × Output :=
  if o.isRunning = false then (some .notRunning, o)
  else if o.queue.length < o.queueCap then
    (none, { o with queue := o.queue ++ [data] })
  else (some .queueFull, o)

/-- `Output.SetVolume`: rejects values outside `[0, 1]`
(`volume < 0.0 || volume > 1.0`), leaving the state untouched. -/
def Output.SetVolume (v : ℚ) (o : Output) : Option Err × Output :=
  if v < 0 ∨ 1 < v then (some .volumeOutOfRange, o)
  else (none, { o with volume := v })

/-- `Output.UpdateConfig`: fails while running (state untouched);
otherwise stores the new config, resets the volume to the new config's
volume, and reallocates the buffer. -/
def Output.UpdateConfig (newConfig : Config) (o : Output) : Option Err × Output :=
  if o.isRunning then (some .updateWhileRunning, o)
  else
    (none,
     { o with
       config := newConfig
       volume := newConfig.outputVolume
       buffer :=
         List.replicate (newConfig.outputBufferSize * newConfig.outputChannels * 2) 0 })

/-- `Output.GetQueueSize` (`len(o.queue)` on the channel). -/
def Output.GetQueueSize (o : Output) : Nat := o.queue.length

/-! ## Manager (src/audio/manager.go) -/

/-- State of `Manager` relevant to the lifecycle claims (`isRunning` is
set by `StartInput`, required by `StartOutput`, cleared by `Stop`).
Endpoint `Start` involves device resolution and driver calls outside
this core; its outcome is passed in as `startResult`. -/
structure Manager where
  isRunning : Bool
deriving DecidableEq, Repr

/-- `Manager.StartInput`: fails when already running; otherwise runs
`input.Start` (outcome `startResult`), and on success sets the running
flag. -/
def Manager.StartInput (startResult : Option Err) (m : Manager) :
    Option Err × Manager :=
  if m.isRunning then (some .alreadyRunning, m)
  else
    match startResult with
    | some e => (some e, m)
    | none => (none, { m with isRunning := true })

/-- `Manager.StartOutput`: fails with `inputNotStarted` when the input
stream has not been started; otherwise runs `output.Start` (outcome
`startResult`). -/
def Manager.StartOutput (startResult : Option Err) (m : Manager) :
    Option Err × Manager :=
  if m.isRunning = false then (some .inputNotStarted, m)
  else
    match startResult with
    | some e => (some e, m)
    | none => (none, m)

/-- `Manager.Stop`: a no-op success when not running; otherwise stops
both endpoints (their `Stop` never fails; errors would only be logged)
and clears the running flag.  Always returns `nil`. -/
def Manager.Stop (m : Manager) : Option Err × Manager :=
  if m.isRunning = false then (none, m)
  else (none, { m with isRunning := false })

/-! ## Shared helper lemmas -/

theorem applyLimiter_length (t : ℚ) (data : List Sample) (c : Nat) :
    (applyLimiter t data c).1.length = data.length := by
  induction data generalizing c with
  | nil => rfl
  | cons s rest ih =>
    by_cases h : t < qabs s <;> simp [applyLimiter, h, ih]

theorem applyLimiter_count (t : ℚ) (data : List Sample) (c : Nat) :
    (applyLimiter t data c).2 =
      c + data.countP (fun s => decide (t < qabs s)) := by
  induction data generalizing c with
  | nil => simp [applyLimiter]
  | cons s rest ih =>
    by_cases h : t < qabs s <;>
      simp [applyLimiter, h, ih, List.countP_cons] <;> omega

theorem truncQ_abs_le (t : ℚ) (ht : 0 ≤ t) : |(truncQ t : ℚ)| ≤ t := by
  rw [truncQ, if_pos ht, abs_of_nonneg (by exact_mod_cast Int.floor_nonneg.mpr ht)]
  exact Int.floor_le t

theorem applyLimiter_mem (t : ℚ) (ht : 0 ≤ t) (data : List Sample) (c : Nat) :
    ∀ s ∈ (applyLimiter t data c).1, qabs s ≤ t := by
  induction data generalizing c with
  | nil => simp [applyLimiter]
  | cons s rest ih =>
    intro x hx
    by_cases h : t < qabs s
    · simp only [applyLimiter, if_pos h, List.mem_cons] at hx
      rcases hx with hx | hx
      · subst hx
        by_cases hs : 0 < s <;>
          simpa [hs, qabs, abs_neg] using truncQ_abs_le t ht
      · exact ih _ _ hx
    · simp only [applyLimiter, if_neg h, List.mem_cons] at hx
      rcases hx with hx | hx
      · subst hx; exact le_of_not_lt h
      · exact ih _ _ hx

/-! ## Claim theorems -/

/-- Claim C4: with the noise gate at linear threshold `t`
(`10^(thresholdDb/20) * 32767` as computed by `applyNoiseGate`), every
sample with magnitude strictly below `t` is zeroed, every sample with
magnitude at or above `t` passes unchanged, and a block in which every
sample magnitude is below `t` becomes an all-zero block. -/
theorem noiseGate_spec (t : ℚ) (data : List Sample) :
    (∀ (i : Nat) (h : i < data.length),
      (qabs data[i] < t → (applyNoiseGate t data)[i]? = some 0) ∧
      (t ≤ qabs data[i] → (applyNoiseGate t data)[i]? = some data[i])) ∧
    ((∀ s ∈ data, qabs s < t) →
      applyNoiseGate t data = List.replicate data.length 0) := by
  constructor
  · intro i h
    constructor <;> intro hc
    · simp [applyNoiseGate, List.getElem?_eq_getElem h, hc]
    · simp [applyNoiseGate, List.getElem?_eq_getElem h, not_lt.mpr hc]
  · intro hall
    induction data with
    | nil => simp [applyNoiseGate]
    | cons s rest ih =>
      have hs := hall s (List.mem_cons_self s rest)
      simp only [applyNoiseGate, List.map_cons, List.length_cons,
        List.replicate_succ, if_pos hs]
      exact congrArg _ (ih fun x hx => hall x (List.mem_cons_of_mem s hx))

theorem noiseGate_spec_witness :
    (applyNoiseGate 5 [3, -7, 2])[0]? = some 0 ∧
    (applyNoiseGate 5 [3, -7, 2])[1]? = some (-7) ∧
    applyNoiseGate 5 [3, -4, 2] = List.replicate 3 0 := by
  refine ⟨((noiseGate_spec 5 [3, -7, 2]).1 0 (by norm_num)).1
            (by norm_num [qabs]),
          ((noiseGate_spec 5 [3, -7, 2]).1 1 (by norm_num)).2
            (by norm_num [qabs]),
          (noiseGate_spec 5 [3, -4, 2]).2 ?_⟩
  intro s hs
  fin_cases hs <;> norm_num [qabs]

/-- Claim C2: with the limiter at linear ceiling `t ≥ 0`
(`10^(peakThreshold/20) * 32767` as computed by `applyLimiter`; the
`float64` power is always nonnegative), no output sample magnitude
exceeds `t`; the clipping counter after the call is the counter before
plus exactly the number of input samples whose magnitude exceeded `t`;
the counter never decreases across `applyLimiter` or `ProcessAudio`,
and only `ResetClippingCount` resets it (to 0). -/
theorem limiter_spec (t : ℚ) (c : Nat) (data : List Sample) (ht : 0 ≤ t) :
    (∀ s ∈ (applyLimiter t data c).1, qabs s ≤ t) ∧
    (applyLimiter t data c).2 =
      c + data.countP (fun s => decide (t < qabs s)) ∧
    c ≤ (applyLimiter t data c).2 ∧
    (∀ (lin : ℚ → ℚ) (ap : APRSProcessor) (input : List Sample),
      ap.clippingCount ≤ (ProcessAudio lin ap input).1.clippingCount) ∧
    (∀ ap : APRSProcessor, (ResetClippingCount ap).clippingCount = 0) := by
  refine ⟨applyLimiter_mem t ht data c, applyLimiter_count t data c, ?_, ?_,
    fun ap => rfl⟩
  · rw [applyLimiter_count]; omega
  · intro lin ap input
    by_cases hL : ap.isLimiterEnabled <;>
      simp [ProcessAudio, hL, applyLimiter_count]

theorem limiter_spec_witness :
    (0 : ℚ) ≤ 5 ∧ (applyLimiter 5 [7, -3, -9, 5] 2).2 = 2 + 2 := by
  refine ⟨by norm_num, ?_⟩
  rw [(limiter_spec 5 2 [7, -3, -9, 5] (by norm_num)).2.1]
  norm_num [qabs, List.countP_cons]

/-- Claim C3: the compressor's knee is fixed at `10^(-20/20) * 32767 =
3276.7`; every sample whose magnitude is at or below the knee passes
through unchanged; the integer sample of twice the knee magnitude
(`truncQ (2 * knee) = 6553`) processed with ratio 4 yields `±4095`,
whose magnitude is within 1 of `knee + knee/4 = 4095.875` and whose
sign matches the input sign. -/
theorem compressor_spec (r : ℚ) (s : Sample) (hs : qabs s ≤ compressorKnee) :
    compressSample r s = s ∧
    truncQ (2 * compressorKnee) = 6553 ∧
    compressSample 4 6553 = 4095 ∧
    compressSample 4 (-6553) = -4095 ∧
    |(4095 : ℚ) - (compressorKnee + compressorKnee / 4)| ≤ 1 ∧
    (0 : Int) < 6553 ∧ (0 : Int) < 4095 ∧ (-6553 : Int) < 0 ∧
    (-4095 : Int) < 0 := by
  refine ⟨?_, ?_, ?_, ?_, ?_, by norm_num, by norm_num, by norm_num,
    by norm_num⟩
  · simp [compressSample, not_lt.mpr hs]
  · norm_num [truncQ, compressorKnee]
  · norm_num [compressSample, compressorKnee, qabs, truncQ]
  · norm_num [compressSample, compressorKnee, qabs, truncQ]
    rw [Int.ceil_eq_iff] <;> norm_num
  · norm_num [compressorKnee, abs_le]

theorem compressor_spec_witness :
    qabs 3276 ≤ compressorKnee ∧ compressSample 4 3276 = 3276 ∧
    compressSample 4 6553 = 4095 := by
  have h := compressor_spec 4 3276 (by norm_num [qabs, compressorKnee])
  exact ⟨by norm_num [qabs, compressorKnee], h.1, h.2.2.1⟩

/-- Claim C1 (code bug in `Input.calculateLevel`): on a non-empty
all-zero block both meters report the −96.0 silence floor, and the
processor meter reports exactly 0 dB on the full-scale alternating
block `[32767, -32767]` (`rms² = 32767²`, and `10·log10(32767²/32767²)
= 0`); but the endpoint meter squares samples in `int16` arithmetic
(`float64(sample * sample)`), so `32767²` wraps to 1, giving `rms = 1`
and a level of `10·log10(1/32767²) < -90` dB instead of 0 dB. -/
theorem levelMeter_inputOverflow_bug :
    (Input.calculateLevel [0, 0] = .flat (-96) ∧
     (calculateLevels [0, 0]).1 = .flat (-96)) ∧
    (calculateLevels [32767, -32767]).1 = .db ((32767 : ℚ) ^ 2) ∧
    (10 : ℝ) * Real.logb 10 ((32767 : ℝ) ^ 2 / 32767 ^ 2) = 0 ∧
    Input.calculateLevel [32767, -32767] = .db 1 ∧
    (10 : ℝ) * Real.logb 10 ((1 : ℝ) / 32767 ^ 2) < -90 := by
  refine ⟨⟨by norm_num [Input.calculateLevel, wrap16],
          by norm_num [calculateLevels, qabs]⟩,
         by norm_num [calculateLevels, qabs], ?_,
         by norm_num [Input.calculateLevel, wrap16], ?_⟩
  · rw [div_self (by norm_num), Real.logb_one, mul_zero]
  · have hlog10 : (0 : ℝ) < Real.log 10 := Real.log_pos (by norm_num)
    have h1 : Real.log ((10 : ℝ) ^ 9) < Real.log ((32767 : ℝ) ^ 2) :=
      Real.log_lt_log (by positivity) (by norm_num)
    rw [Real.log_pow] at h1
    have h2 : Real.logb 10 ((1 : ℝ) / 32767 ^ 2) =
        -(Real.log ((32767 : ℝ) ^ 2) / Real.log 10) := by
      rw [Real.logb, one_div, Real.log_inv, neg_div]
    rw [h2]
    have h3 : (9 : ℝ) < Real.log ((32767 : ℝ) ^ 2) / Real.log 10 := by
      rw [lt_div_iff₀ hlog10]
      exact_mod_cast h1
    nlinarith

/-- Claim C5: `ProcessAudio` always returns a block of the same length
as its input (it is a total function of the sample list, so there is no
failure path), and on a zero-length block it returns the empty block
and stores the −96.0 silence floor in both the RMS and peak levels. -/
theorem processAudio_spec (lin : ℚ → ℚ) (ap : APRSProcessor)
    (input : List Sample) :
    (ProcessAudio lin ap input).2.length = input.length ∧
    (ProcessAudio lin ap []).2 = [] ∧
    (ProcessAudio lin ap []).1.rmsLevel = .flat (-96) ∧
    (ProcessAudio lin ap []).1.peakLevel = .flat (-96) := by
  refine ⟨?_, ?_, ?_, ?_⟩ <;>
  · by_cases h1 : ap.isNoiseGateEnabled <;>
      by_cases h2 : ap.isCompressorEnabled <;>
        by_cases h3 : ap.isLimiterEnabled <;>
          simp [ProcessAudio, h1, h2, h3, applyLimiter_length,
            applyNoiseGate, applyCompressor, applyLimiter, calculateLevels]

/-- A concrete configuration used by the witnesses below. -/
def cfgA : Config :=
  { inputBufferSize := 4
    inputChannels := 1
    inputGain := 1
    outputBufferSize := 4
    outputChannels := 1
    outputVolume := 1 }

/-- Claim C6: `Input.SetGain` accepts exactly the closed range `[0, 2]`
and `Output.SetVolume` exactly `[0, 1]`; a rejected value leaves the
prior state (gain/volume included) unchanged; `SetGain(-0.1)` and
`SetGain(2.1)` both fail while `SetGain(2.0)` succeeds. -/
theorem setGain_setVolume_spec (g v : ℚ) (i : Input) (o : Output) :
    ((Input.SetGain g i).1 = none ↔ 0 ≤ g ∧ g ≤ 2) ∧
    ((Input.SetGain g i).1 = none →
      (Input.SetGain g i).2 = { i with gain := g }) ∧
    ((Input.SetGain g i).1 ≠ none → (Input.SetGain g i).2 = i) ∧
    ((Output.SetVolume v o).1 = none ↔ 0 ≤ v ∧ v ≤ 1) ∧
    ((Output.SetVolume v o).1 = none →
      (Output.SetVolume v o).2 = { o with volume := v }) ∧
    ((Output.SetVolume v o).1 ≠ none → (Output.SetVolume v o).2 = o) ∧
    (Input.SetGain (-1/10) i).1 = some .gainOutOfRange ∧
    (Input.SetGain (21/10) i).1 = some .gainOutOfRange ∧
    (Input.SetGain 2 i).1 = none := by
  have hg : ¬(g < 0 ∨ 2 < g) ↔ 0 ≤ g ∧ g ≤ 2 := by
    rw [not_or, not_lt, not_lt]
  have hv : ¬(v < 0 ∨ 1 < v) ↔ 0 ≤ v ∧ v ≤ 1 := by
    rw [not_or, not_lt, not_lt]
  refine ⟨?_, ?_, ?_, ?_, ?_, ?_, by norm_num [Input.SetGain],
    by norm_num [Input.SetGain], by norm_num [Input.SetGain]⟩
  · rw [← hg]
    by_cases h : g < 0 ∨ 2 < g <;> simp [Input.SetGain, h]
  · intro h
    by_cases hc : g < 0 ∨ 2 < g
    · simp_all [Input.SetGain]
    · simp [Input.SetGain, hc]
  · intro h
    by_cases hc : g < 0 ∨ 2 < g
    · simp [Input.SetGain, hc]
    · simp_all [Input.SetGain]
  · rw [← hv]
    by_cases h : v < 0 ∨ 1 < v <;> simp [Output.SetVolume, h]
  · intro h
    by_cases hc : v < 0 ∨ 1 < v
    · simp_all [Output.SetVolume]
    · simp [Output.SetVolume, hc]
  · intro h
    by_cases hc : v < 0 ∨ 1 < v
    · simp [Output.SetVolume, hc]
    · simp_all [Output.SetVolume]

theorem setGain_setVolume_spec_witness :
    (Input.SetGain (-1/10) (NewInput cfgA)).1 = some .gainOutOfRange ∧
    (Input.SetGain 2 (NewInput cfgA)).2 =
      { NewInput cfgA with gain := 2 } ∧
    (Output.SetVolume (3/2) (NewOutput cfgA)).2 = NewOutput cfgA := by
  have h := setGain_setVolume_spec 2 (3/2) (NewInput cfgA) (NewOutput cfgA)
  refine ⟨(setGain_setVolume_spec (-1/10) 0 (NewInput cfgA)
    (NewOutput cfgA)).2.2.2.2.2.2.1, ?_, ?_⟩
  · exact h.2.1 (h.1.mpr ⟨by norm_num, by norm_num⟩)
  · refine h.2.2.2.2.2.1 ?_
    intro hc
    have := h.2.2.2.1.mp hc
    linarith [this.2]

/-- A full-queue running output endpoint, used by the C7 witness. -/
def fullOutput : Output :=
  { NewOutput cfgA with
    isRunning := true
    queue := List.replicate 10 [] }

/-- Claim C7: `PlayAudio` on a stopped playback endpoint fails with
`notRunning`; on a running endpoint whose bounded queue (capacity 10,
fixed by `NewOutput`) already holds 10 blocks it fails with `queueFull`
without enqueueing, the block is dropped (state unchanged), and the
queue size stays 10. -/
theorem playAudio_spec (cfg : Config) (o : Output) (data : List Nat) :
    (NewOutput cfg).queueCap = 10 ∧
    (o.isRunning = false → Output.PlayAudio data o = (some .notRunning, o)) ∧
    (o.isRunning = true → o.queue.length = 10 → o.queueCap = 10 →
      (Output.PlayAudio data o).1 = some .queueFull ∧
      (Output.PlayAudio data o).2 = o ∧
      (Output.PlayAudio data o).2.queue.length = 10) := by
  refine ⟨rfl, ?_, ?_⟩
  · intro h
    simp [Output.PlayAudio, h]
  · intro h hlen hcap
    simp [Output.PlayAudio, h, hlen, hcap]

theorem playAudio_spec_witness :
    (Output.PlayAudio [1, 2] (NewOutput cfgA)).1 = some .notRunning ∧
    (Output.PlayAudio [1, 2] fullOutput).1 = some .queueFull ∧
    (Output.PlayAudio [1, 2] fullOutput).2.queue.length = 10 := by
  have h1 := (playAudio_spec cfgA (NewOutput cfgA) [1, 2]).2.1 rfl
  have h2 := (playAudio_spec cfgA fullOutput [1, 2]).2.2 rfl
    (by simp [fullOutput]) rfl
  exact ⟨by rw [h1], h2.1, h2.2.2⟩

/-- Claim C8: `UpdateConfig` while running fails with the
invalid-operation error and leaves the whole endpoint state (config,
gain/volume, buffer) unchanged; while stopped it succeeds, the buffer
afterwards has length `bufferSize * channels * 2` bytes, and the gain
(input) / volume (output) is reset to the new config's value. -/
theorem updateConfig_spec (newCfg : Config) (i : Input) (o : Output) :
    (i.isRunning = true →
      Input.UpdateConfig newCfg i = (some .updateWhileRunning, i)) ∧
    (i.isRunning = false →
      (Input.UpdateConfig newCfg i).1 = none ∧
      (Input.UpdateConfig newCfg i).2.buffer.length =
        newCfg.inputBufferSize * newCfg.inputChannels * 2 ∧
      (Input.UpdateConfig newCfg i).2.gain = newCfg.inputGain ∧
      (Input.UpdateConfig newCfg i).2.config = newCfg) ∧
    (o.isRunning = true →
      Output.UpdateConfig newCfg o = (some .updateWhileRunning, o)) ∧
    (o.isRunning = false →
      (Output.UpdateConfig newCfg o).1 = none ∧
      (Output.UpdateConfig newCfg o).2.buffer.length =
        newCfg.outputBufferSize * newCfg.outputChannels * 2 ∧
      (Output.UpdateConfig newCfg o).2.volume = newCfg.outputVolume ∧
      (Output.UpdateConfig newCfg o).2.config = newCfg) := by
  refine ⟨?_, ?_, ?_, ?_⟩ <;> intro h <;>
    simp [Input.UpdateConfig, Output.UpdateConfig, h]

theorem updateConfig_spec_witness :
    (Input.UpdateConfig cfgA { NewInput cfgA with isRunning := true }).1 =
      some .updateWhileRunning ∧
    (Input.UpdateConfig cfgA (NewInput cfgA)).2.buffer.length = 4 * 1 * 2 ∧
    (Output.UpdateConfig cfgA (NewOutput cfgA)).2.volume = 1 := by
  have h1 := (updateConfig_spec cfgA { NewInput cfgA with isRunning := true }
    (NewOutput cfgA)).1 rfl
  have h2 := (updateConfig_spec cfgA (NewInput cfgA) (NewOutput cfgA)).2.1 rfl
  have h3 := (updateConfig_spec cfgA (NewInput cfgA) (NewOutput cfgA)).2.2.2 rfl
  exact ⟨by rw [h1], h2.2.1, h3.2.2.1⟩

/-- Claim C9: lifecycle state machine — `Manager.StartInput` fails with
`alreadyRunning` when the manager is already running and the state stays
running; `Manager.Stop` on a stopped manager is a no-op success;
`Manager.StartOutput` fails with `inputNotStarted` whenever the input
stream has not been started; `Input.Stop` on a stopped input is a no-op
success. -/
theorem lifecycle_spec (startResult : Option Err) (m : Manager) (i : Input) :
    (m.isRunning = true →
      Manager.StartInput startResult m = (some .alreadyRunning, m) ∧
      (Manager.StartInput startResult m).2.isRunning = true) ∧
    (m.isRunning = false → Manager.Stop m = (none, m)) ∧
    (m.isRunning = false →
      Manager.StartOutput startResult m = (some .inputNotStarted, m)) ∧
    (i.isRunning = false → Input.Stop i = (none, i)) := by
  refine ⟨?_, ?_, ?_, ?_⟩ <;> intro h <;>
    simp [Manager.StartInput, Manager.StartOutput, Manager.Stop,
      Input.Stop, h]

theorem lifecycle_spec_witness :
    Manager.StartInput none ⟨true⟩ = (some .alreadyRunning, ⟨true⟩) ∧
    Manager.Stop ⟨false⟩ = (none, ⟨false⟩) ∧
    Manager.StartOutput none ⟨false⟩ = (some .inputNotStarted, ⟨false⟩) ∧
    Input.Stop (NewInput cfgA) = (none, NewInput cfgA) := by
  have h := lifecycle_spec none ⟨true⟩ (NewInput cfgA)
  have h2 := lifecycle_spec none ⟨false⟩ (NewInput cfgA)
  exact ⟨(h.1 rfl).1, h2.2.1 rfl, h2.2.2.1 rfl, h2.2.2.2 rfl⟩

/-- An `APRSProcessor` with only the compressor enabled, used to show
that the stored compression ratio is what the next `ProcessAudio` call
divides by. -/
def compressorOnly : APRSProcessor :=
  { NewAPRSProcessor with
    isNoiseGateEnabled := false
    isLimiterEnabled := false }

/-- Claim C10 (implicit): the dynamics-parameter setters perform no
validation — for every value `t` (any rational, including negatives,
zero and out-of-range magnitudes; IEEE specials have no counterpart in
this exact model) each setter returns no error (its Go signature has
none) and unconditionally stores `t`, and the stored value is what the
next `ProcessAudio` call uses: with ratio 4 the compressor-only chain
maps the sample 6553 to 4095, with ratio 2 to 4914, and a stored ratio
of 0 is accepted and reaches the compressor's division. -/
theorem dynamicsSetters_spec (t : ℚ) (ap : APRSProcessor) :
    (SetNoiseGateThreshold t ap).noiseGateThreshold = t ∧
    (SetCompressionRatio t ap).compressionRatio = t ∧
    (SetPeakThreshold t ap).peakThreshold = t ∧
    (∀ (lin : ℚ → ℚ) (input : List Sample),
      (ProcessAudio lin (SetCompressionRatio t ap) input).1.compressionRatio
        = t) ∧
    (SetCompressionRatio 0 ap).compressionRatio = 0 ∧
    (ProcessAudio (fun _ => 0) (SetCompressionRatio 4 compressorOnly)
      [6553]).2 = [4095] ∧
    (ProcessAudio (fun _ => 0) (SetCompressionRatio 2 compressorOnly)
      [6553]).2 = [4914] := by
  refine ⟨rfl, rfl, rfl, fun lin input => ?_, rfl, ?_, ?_⟩
  · by_cases hL : ap.isLimiterEnabled <;>
      simp [ProcessAudio, SetCompressionRatio, hL]
  · norm_num [ProcessAudio, SetCompressionRatio, compressorOnly,
      NewAPRSProcessor, applyCompressor, compressSample, compressorKnee,
      qabs, truncQ, applyLimiter]
  · norm_num [ProcessAudio, SetCompressionRatio, compressorOnly,
      NewAPRSProcessor, applyCompressor, compressSample, compressorKnee,
      qabs, truncQ, applyLimiter]
